import Mathlib

/-!
Verification of the zerohalt process supervisor against its
natural-language specification.  Each definition is a shallow embedding
of the corresponding Go function; durations are modelled in
milliseconds as naturals, Go `int` values as `Int`, and `uint8`/`uint16`
values as naturals.
-/

namespace Zerohalt

/-! ### Lifecycle state store (pkg/health/state.go)

`HealthState` in Go is an `int`; the five declared constants are
0 through 4 but arbitrary integer values can be injected (the tests use
`HealthState(99)`), so states are modelled as `Int`. -/

def StateStarting : Int := 0

def StateHealthy : Int := 1

def StateUnhealthy : Int := 2

def StateDraining : Int := 3

def StateTerminating : Int := 4

/-- Embedding of `State.Set` (pkg/health/state.go): given the current
stored state and a requested target, returns the new stored state.
A transition out of `Terminating` is rejected; a transition out of
`Draining` to anything but `Terminating` is rejected; everything else
is accepted. -/
def stateSet (current target : Int) : Int :=
  if current = StateTerminating then current
  else if current = StateDraining ∧ target ≠ StateTerminating then current
  else target

/-- Runs a finite sequence of `State.Set` calls from the initial state
`Starting` (`NewState` in pkg/health/state.go); the result is what
`State.Get` returns afterwards. -/
def runSets (targets : List Int) : Int :=
  targets.foldl stateSet StateStarting

/-! ### TCP connection counting (pkg/monitor) -/

def StateEstablished : Nat := 0x01

def StateSynSent : Nat := 0x02

def StateSynRecv : Nat := 0x03

def StateFinWait1 : Nat := 0x04

def StateFinWait2 : Nat := 0x05

def StateTimeWait : Nat := 0x06

def StateClose : Nat := 0x07

def StateCloseWait : Nat := 0x08

def StateLastAck : Nat := 0x09

def StateListen : Nat := 0x0A

def StateClosing : Nat := 0x0B

/-- One row of the kernel TCP table as parsed by `parseProcNetTCPImpl`
(cmd/zerohalt related monitor source): local/remote address strings,
ports, 8-bit protocol state and owning uid. -/
structure Connection where
  localAddr : String
  localPort : Nat
  remoteAddr : String
  remotePort : Nat
  state : Nat
  uid : Nat

/-- Embedding of `Monitor.isActiveState` (pkg/monitor/connections.go):
the switch returns true exactly for the eight in-flight states. -/
def isActiveState (state : Nat) : Bool :=
  if state = StateEstablished then true
  else if state = StateSynSent then true
  else if state = StateSynRecv then true
  else if state = StateFinWait1 then true
  else if state = StateFinWait2 then true
  else if state = StateCloseWait then true
  else if state = StateClosing then true
  else if state = StateLastAck then true
  else false

/-- Embedding of `Monitor.isMonitoredPort` (pkg/monitor/connections.go):
linear scan of the configured port list. -/
def isMonitoredPort (ports : List Nat) (port : Nat) : Bool :=
  match ports with
  | [] => false
  | p :: rest => if p = port then true else isMonitoredPort rest port

/-- Embedding of the counting loop inside
`Monitor.CountActiveConnections` (pkg/monitor/connections.go), applied
to the list of connections parsed from both kernel tables. -/
def countActiveConnections (ports : List Nat) (conns : List Connection) : Nat :=
  conns.foldl
    (fun count conn =>
      if isMonitoredPort ports conn.localPort && isActiveState conn.state then count + 1
      else count)
    0

/-- The "active" state enumeration exactly as the specification words
it: ESTABLISHED, SYN_SENT, SYN_RECV, FIN_WAIT1, FIN_WAIT2, CLOSE_WAIT,
CLOSING, LAST_ACK. -/
def specActiveStates : List Nat :=
  [StateEstablished, StateSynSent, StateSynRecv, StateFinWait1,
   StateFinWait2, StateCloseWait, StateClosing, StateLastAck]

/-! ### Signals (pkg/process)

`os.Signal` values are modelled by a closed inductive covering the
signals the program names, plus `other` for any remaining Unix
signal. -/

inductive Sig where
  | SIGHUP
  | SIGINT
  | SIGTERM
  | SIGUSR1
  | SIGUSR2
  | SIGWINCH
  | SIGQUIT
  | SIGCHLD
  | SIGKILL
  | other (n : Nat)
  deriving DecidableEq

/-- The Go runtime `String()` rendering of each signal, used as the
metrics label. -/
def sigString : Sig → String
  | Sig.SIGHUP => "hangup"
  | Sig.SIGINT => "interrupt"
  | Sig.SIGTERM => "terminated"
  | Sig.SIGUSR1 => "user defined signal 1"
  | Sig.SIGUSR2 => "user defined signal 2"
  | Sig.SIGWINCH => "window changed"
  | Sig.SIGQUIT => "quit"
  | Sig.SIGCHLD => "child exited"
  | Sig.SIGKILL => "killed"
  | Sig.other n => "signal " ++ toString n

/-- Embedding of `ParseSignal` (pkg/process signal source): lookup in
`signalMap`; a name outside the closed vocabulary yields nil, modelled
as `none`. -/
def ParseSignal (name : String) : Option Sig :=
  if name = "SIGHUP" then some Sig.SIGHUP
  else if name = "SIGINT" then some Sig.SIGINT
  else if name = "SIGTERM" then some Sig.SIGTERM
  else if name = "SIGUSR1" then some Sig.SIGUSR1
  else if name = "SIGUSR2" then some Sig.SIGUSR2
  else if name = "SIGWINCH" then some Sig.SIGWINCH
  else if name = "SIGQUIT" then some Sig.SIGQUIT
  else none

inductive SignalAction where
  | ActionIgnore
  | ActionPassThrough
  | ActionShutdown
  | ActionReapZombies
  deriving DecidableEq

/-- The two signal sets held by `SignalHandler` (its maps from signals
to booleans). -/
structure SignalHandlerSets where
  passThroughSignals : Sig → Bool
  shutdownSignals : Sig → Bool

/-- Observable effects of one `SignalHandler.Handle` call: the action
returned, the labels whose received counter was incremented, and the
labels whose forwarded counter was incremented. -/
structure HandleOut where
  action : SignalAction
  receivedInc : List String
  forwardedInc : List String
  deriving DecidableEq

/-- Embedding of `SignalHandler.forwardSignalToApp`: the forwarded
counter for the signal's name is incremented exactly when delivering
the signal to the child succeeds (`forwardOk`). -/
def forwardSignalToApp (sig : Sig) (forwardOk : Bool) : List String :=
  if forwardOk then [sigString sig] else []

/-- Embedding of `SignalHandler.Handle` (pkg/process signal source):
the received counter is incremented first, then the switch classifies
in priority order shutdown, pass-through, SIGCHLD, default. -/
def handle (h : SignalHandlerSets) (sig : Sig) (forwardOk : Bool) : HandleOut :=
  let received := [sigString sig]
  if h.shutdownSignals sig then
    ⟨SignalAction.ActionShutdown, received, []⟩
  else if h.passThroughSignals sig then
    ⟨SignalAction.ActionPassThrough, received, forwardSignalToApp sig forwardOk⟩
  else if sig = Sig.SIGCHLD then
    ⟨SignalAction.ActionReapZombies, received, []⟩
  else
    ⟨SignalAction.ActionIgnore, received, []⟩

/-! ### Configuration (pkg/config)

Go `time.Duration` values are `int64` nanosecond counts, modelled as
`Int`. -/

def second : Int := 1000000000

structure AppConfig where
  command : List String
  port : Nat
  additionalPorts : List Nat
  healthURL : String
  startupTimeout : Int

structure HealthConfig where
  port : Nat
  path : String
  mode : String
  probeInterval : Int
  probeTimeout : Int
  command : List String
  commandTimeout : Int

structure ShutdownSettings where
  drainTimeout : Int
  shutdownTimeout : Int
  connectionCheckInterval : Int
  signalToApp : String
  forceKillAfterTimeout : Bool
  drainStrategy : String
  connectionIdleThreshold : Int
  maxConnectionAge : Int

structure LoggingConfig where
  level : String
  includeTimestamp : Bool

structure SignalConfig where
  passThroughSignals : List String
  shutdownSignals : List String

structure MetricsConfig where
  enabled : Bool
  port : Nat
  path : String

structure Config where
  app : AppConfig
  health : HealthConfig
  shutdown : ShutdownSettings
  logging : LoggingConfig
  signal : SignalConfig
  metrics : MetricsConfig

/-- Embedding of `DefaultSignalConfig` (pkg/config/config.go lines
123 to 128). -/
def DefaultSignalConfig : SignalConfig :=
  ⟨["SIGHUP", "SIGUSR1", "SIGUSR2", "SIGWINCH"],
   ["SIGTERM", "SIGINT", "SIGQUIT"]⟩

/-- Embedding of `DefaultConfig` (pkg/config/config.go). -/
def DefaultConfig : Config where
  app := ⟨[], 8080, [], "http://localhost:8080/health", 30 * second⟩
  health := ⟨8888, "/health", "standalone", 5 * second, 2 * second, [], 5 * second⟩
  shutdown := ⟨60 * second, 30 * second, 1 * second, "SIGTERM", true, "connections",
    30 * second, 0⟩
  logging := ⟨"info", true⟩
  signal := DefaultSignalConfig
  metrics := ⟨false, 8888, "/metrics"⟩

def validHealthModes : List String := ["standalone", "app-dependent", "hybrid", "command"]

def validSignalNames : List String :=
  ["SIGHUP", "SIGINT", "SIGTERM", "SIGUSR1", "SIGUSR2", "SIGWINCH", "SIGQUIT"]

/-- Embedding of `Config.validateSignalConflicts` (config loader
source): the first pass-through signal also present in the shutdown
set is an error. -/
def validateSignalConflicts (c : Config) : Option String :=
  match c.signal.passThroughSignals.find? (fun pt => c.signal.shutdownSignals.contains pt) with
  | some pt => some ("signal " ++ pt ++ " cannot be both pass-through and shutdown signal")
  | none => none

/-- Embedding of `Config.Validate` (config loader source): the first
failing check's error, `none` when the configuration is valid. -/
def validateErr (c : Config) : Option String :=
  if c.health.port = 0 then some "health check port must be specified"
  else if c.health.path = "" then some "health check path must be specified"
  else if validHealthModes.contains c.health.mode = false then
    some ("invalid health mode: " ++ c.health.mode)
  else if c.shutdown.drainTimeout ≤ 0 then some "drain timeout must be positive"
  else if c.shutdown.shutdownTimeout ≤ 0 then some "shutdown timeout must be positive"
  else
    match c.signal.passThroughSignals.find? (fun sg => !(validSignalNames.contains sg)) with
    | some sg => some ("invalid pass-through signal: " ++ sg)
    | none =>
      match c.signal.shutdownSignals.find? (fun sg => !(sg == "SIGTERM" || sg == "SIGINT")) with
      | some sg => some ("invalid shutdown signal: " ++ sg)
      | none => validateSignalConflicts c

/-- Embedding of `LoadFromEnv` (config loader source) in an environment
where every ZEROHALT_* variable is unset: every override branch is
skipped, so the call returns `DefaultConfig` together with
`DefaultConfig.Validate()`. -/
def loadFromEnvEmptyEnv : Except String Config :=
  match validateErr DefaultConfig with
  | some e => Except.error e
  | none => Except.ok DefaultConfig

/-! ### Health HTTP endpoint (pkg/health server source with app
checker) -/

structure HttpResponse where
  status : Nat
  contentType : String
  body : String
  deriving DecidableEq

def jsonContentType : String := "application/json"

def startingBody : String := "\x7b\"status\":\"starting\"\x7d"

def healthyBody : String := "\x7b\"status\":\"healthy\"\x7d"

def unhealthyBody : String := "\x7b\"status\":\"unhealthy\"\x7d"

def drainingBody : String := "\x7b\"status\":\"draining\"\x7d"

def terminatingBody : String := "\x7b\"status\":\"terminating\"\x7d"

def unknownBody : String := "\x7b\"status\":\"unknown\"\x7d"

/-- Embedding of `Server.writeHealthyStateWithAppCheck`: probe success
keeps 200 healthy, probe failure yields 503 unhealthy. -/
def writeHealthyStateWithAppCheck (appCheckResult : Bool) : HttpResponse :=
  if appCheckResult then ⟨200, jsonContentType, healthyBody⟩
  else ⟨503, jsonContentType, unhealthyBody⟩

/-- Embedding of `Server.handleHealthyState`. -/
def handleHealthyState (hasAppChecker appCheckResult : Bool) : HttpResponse :=
  if hasAppChecker then writeHealthyStateWithAppCheck appCheckResult
  else ⟨200, jsonContentType, healthyBody⟩

/-- Embedding of `Server.writeUnhealthyStateWithAppCheck`: on probe
success the stored state is set to Healthy (through `State.Set`) and
200 healthy is returned; on failure 503 unhealthy. -/
def writeUnhealthyStateWithAppCheck (appCheckResult : Bool) (state : Int) :
    HttpResponse × Int :=
  if appCheckResult then (⟨200, jsonContentType, healthyBody⟩, stateSet state StateHealthy)
  else (⟨503, jsonContentType, unhealthyBody⟩, state)

/-- Embedding of `Server.handleUnhealthyState`. -/
def handleUnhealthyState (hasAppChecker appCheckResult : Bool) (state : Int) :
    HttpResponse × Int :=
  if hasAppChecker then writeUnhealthyStateWithAppCheck appCheckResult state
  else (⟨503, jsonContentType, unhealthyBody⟩, state)

/-- Embedding of `Server.healthHandler` (pkg/health server source with
app checker): samples the state, sets the JSON content type and
switches on the sampled value; returns the response together with the
stored state after the call. -/
def healthHandler (hasAppChecker appCheckResult : Bool) (state : Int) :
    HttpResponse × Int :=
  if state = StateHealthy then (handleHealthyState hasAppChecker appCheckResult, state)
  else if state = StateStarting then (⟨503, jsonContentType, startingBody⟩, state)
  else if state = StateUnhealthy then handleUnhealthyState hasAppChecker appCheckResult state
  else if state = StateDraining then (⟨503, jsonContentType, drainingBody⟩, state)
  else if state = StateTerminating then (⟨503, jsonContentType, terminatingBody⟩, state)
  else (⟨500, jsonContentType, unknownBody⟩, state)

/-! ### Shutdown coordinator (pkg/shutdown/coordinator.go) -/

structure CoordConfig where
  drainTimeout : Int
  shutdownTimeout : Int
  signalToApp : String
  forceKillAfterTimeout : Bool

/-- Embedding of `Coordinator.getSignalForApp`: empty configuration
falls back to the received signal, an unrecognized name falls back to
the received signal, a recognized name wins. -/
def getSignalForApp (cfg : CoordConfig) (receivedSignal : Sig) : Sig :=
  if cfg.signalToApp = "" then receivedSignal
  else
    match ParseSignal cfg.signalToApp with
    | none => receivedSignal
    | some s => s

/-- How the child's `Wait` resolves against the shutdown timeout:
either it completes first with an optional error, or the timeout
elapses first. -/
inductive WaitOutcome where
  | exits (err : Option String)
  | timesOut
  deriving DecidableEq

inductive ShutdownResult where
  | ok
  | errShutdownTimeout
  | waitErr (msg : String)
  deriving DecidableEq

/-- Embedding of the wait goroutine body in
`Coordinator.InitiateShutdown`: "no child processes" errors are
flattened to nil. -/
def flattenWaitErr : Option String → Option String
  | some msg =>
    if msg = "waitid: no child processes" ∨ msg = "wait: no child processes" then none
    else some msg
  | none => none

/-- Environment of one `InitiateShutdown` call: the result of the
drain wait and how the child wait resolves. -/
structure CoordEnv where
  drainErr : Option String
  childWait : WaitOutcome
  deriving DecidableEq

/-- Observable effects of one `InitiateShutdown` call. -/
structure CoordTrace where
  stateSetTo : Int
  signalSent : Option Sig
  sigkillSent : Bool
  result : ShutdownResult
  deriving DecidableEq

/-- Embedding of `Coordinator.InitiateShutdown`
(pkg/shutdown/coordinator.go): set Draining, run the drain wait whose
error is only logged, return ok when there is no child handle,
otherwise signal the child and race its wait against the shutdown
timeout. -/
def initiateShutdown (cfg : CoordConfig) (hasChild : Bool) (sig : Sig)
    (env : CoordEnv) : CoordTrace :=
  if hasChild = false then ⟨StateDraining, none, false, ShutdownResult.ok⟩
  else
    let appSig := getSignalForApp cfg sig
    match env.childWait with
    | WaitOutcome.exits err =>
      match flattenWaitErr err with
      | none => ⟨StateDraining, some appSig, false, ShutdownResult.ok⟩
      | some m => ⟨StateDraining, some appSig, false, ShutdownResult.waitErr m⟩
    | WaitOutcome.timesOut =>
      ⟨StateDraining, some appSig, cfg.forceKillAfterTimeout, ShutdownResult.errShutdownTimeout⟩

/-! ### Kernel TCP table address parsing (cmd/zerohalt monitor parsing
source, `parseAddress` and `parseIPv4Hex`) -/

/-- Value of one hexadecimal digit character, as in Go's strconv and
encoding/hex digit handling. -/
def hexDigitVal (c : Char) : Option Nat :=
  if '0' ≤ c ∧ c ≤ '9' then some (c.toNat - '0'.toNat)
  else if 'a' ≤ c ∧ c ≤ 'f' then some (c.toNat - 'a'.toNat + 10)
  else if 'A' ≤ c ∧ c ≤ 'F' then some (c.toNat - 'A'.toNat + 10)
  else none

/-- Go `strings.Split` on the single separator character `:`. -/
def splitOnColon : List Char → List (List Char)
  | [] => [[]]
  | c :: rest =>
    if c = ':' then [] :: splitOnColon rest
    else
      match splitOnColon rest with
      | [] => [[c]]
      | h :: t => (c :: h) :: t

def goParseUint16HexAux : List Char → Nat → Nat
  | [], v => v
  | c :: rest, v =>
    match hexDigitVal c with
    | none => 0
    | some d =>
      if v * 16 + d > 65535 then 65535
      else goParseUint16HexAux rest (v * 16 + d)

/-- Go `strconv.ParseUint(s, 16, 16)` as consumed by `parseAddress`,
which discards the error: the parsed value for valid input, 0 on empty
input or a syntax error, 65535 when the value overflows 16 bits. -/
def goParseUint16Hex (s : List Char) : Nat :=
  match s with
  | [] => 0
  | _ => goParseUint16HexAux s 0

/-- Go `hex.DecodeString` restricted to what `parseIPv4Hex` consumes:
the decoded bytes, or `none` on odd length or an invalid digit. -/
def hexDecode : List Char → Option (List Nat)
  | [] => some []
  | [_] => none
  | a :: b :: rest =>
    match hexDigitVal a, hexDigitVal b with
    | some ha, some hb => (hexDecode rest).map (fun t => (ha * 16 + hb) :: t)
    | _, _ => none

/-- Embedding of `parseIPv4Hex`: an 8-hex-digit string decodes to four
bytes which are formatted reversed as a dotted quad; anything else
yields the empty string. -/
def parseIPv4Hex (hexIP : List Char) : String :=
  if hexIP.length ≠ 8 then ""
  else
    match hexDecode hexIP with
    | none => ""
    | some bytes =>
      toString (bytes.getD 3 0) ++ "." ++ toString (bytes.getD 2 0) ++ "." ++
        toString (bytes.getD 1 0) ++ "." ++ toString (bytes.getD 0 0)

/-- Embedding of `parseAddress`: split on the colon, parse the port as
hex (error discarded) and the address through `parseIPv4Hex`. -/
def parseAddress (addr : List Char) : String × Nat :=
  match splitOnColon addr with
  | [ipHex, portHex] => (parseIPv4Hex ipHex, goParseUint16Hex portHex)
  | _ => ("", 0)

/-- Lowercase hexadecimal digit character for a value below 16. -/
def hexDigitChar (n : Nat) : Char :=
  if n < 10 then Char.ofNat (48 + n) else Char.ofNat (97 + n - 10)

/-- Two-digit hexadecimal rendering of one byte. -/
def byteToHex (b : Nat) : List Char := [hexDigitChar (b / 16), hexDigitChar (b % 16)]

/-- The hexadecimal digits of a number, most significant first (the
specification's "hexadecimal digits of p"). -/
def natToHexChars (p : Nat) : List Char :=
  if p = 0 then ['0'] else (Nat.digits 16 p).reverse.map hexDigitChar

/-- The kernel table's textual encoding of `a.b.c.d:p` as the
specification describes it: the address bytes little-endian (d, c, b,
a) as 8 hex digits, a colon, then the hex digits of the port. -/
def encodeProcAddr (a b c d p : Nat) : List Char :=
  (byteToHex d ++ byteToHex c ++ byteToHex b ++ byteToHex a) ++ ':' :: natToHexChars p

/-- The dotted-quad string `a.b.c.d`. -/
def dottedQuad (a b c d : Nat) : String :=
  toString a ++ "." ++ toString b ++ "." ++ toString c ++ "." ++ toString d

/-! ### Drain wait (pkg/monitor/connections.go,
`WaitForZeroConnections` and `waitForSteadyState`)

Time is modelled in milliseconds as naturals; each polling tick of the
main loop advances the clock by the check interval and each
steady-state tick by 50 ms, while the sampling itself is instantaneous.
The sequence of `CountActiveConnections` results is a function from
sample index to `Option Nat`, with `none` standing for a read error.
A fuel parameter bounds the number of loop iterations; a `none` run
result means only that the fuel ran out. -/

structure MonitorCfg where
  interval : Nat
  steadyStateWait : Nat

inductive DrainResult where
  | ok
  | errDrainTimeout
  | ioError
  deriving DecidableEq

structure PollState where
  idx : Nat
  now : Nat
  deriving DecidableEq

/-- The three mutually recursive control points of the drain wait: the
entry of `WaitForZeroConnections` (holding its timeout argument), its
polling loop (holding the computed deadline), and the steady-state
loop of `waitForSteadyState` (holding the overall deadline and the
steady-state deadline computed at entry). -/
inductive DrainPhase where
  | wait (timeout : Nat)
  | drain (deadline : Nat)
  | steady (deadline ssDeadline : Nat)
  deriving DecidableEq

/-- Embedding of `Monitor.WaitForZeroConnections` and
`Monitor.waitForSteadyState` as one step function over the three
control points.  `wait`: compute the deadline, sample once immediately,
and either return the error, finish, enter the steady-state wait, or
enter the polling loop.  `drain`: sleep one check interval, sample, and
either return the error, finish, enter the steady-state wait, observe
the deadline passed, or continue.  `steady`: sleep 50 ms, first check
the overall deadline, then sample; a positive count re-enters the whole
wait with the time remaining until the original deadline, a zero count
past the steady-state deadline returns ok. -/
def drainStep (m : MonitorCfg) (counts : Nat → Option Nat) :
    Nat → PollState → DrainPhase → Option (DrainResult × PollState)
  | 0, _, _ => none
  | fuel + 1, st, DrainPhase.wait timeout =>
    let deadline := st.now + timeout
    match counts st.idx with
    | none => some (DrainResult.ioError, ⟨st.idx + 1, st.now⟩)
    | some c =>
      let st2 : PollState := ⟨st.idx + 1, st.now⟩
      if c = 0 then
        if m.steadyStateWait > 0 then
          drainStep m counts fuel st2 (DrainPhase.steady deadline (st2.now + m.steadyStateWait))
        else some (DrainResult.ok, st2)
      else drainStep m counts fuel st2 (DrainPhase.drain deadline)
  | fuel + 1, st, DrainPhase.drain deadline =>
    let now2 := st.now + m.interval
    match counts st.idx with
    | none => some (DrainResult.ioError, ⟨st.idx + 1, now2⟩)
    | some c =>
      let st2 : PollState := ⟨st.idx + 1, now2⟩
      if c = 0 then
        if m.steadyStateWait > 0 then
          drainStep m counts fuel st2 (DrainPhase.steady deadline (st2.now + m.steadyStateWait))
        else some (DrainResult.ok, st2)
      else if now2 > deadline then some (DrainResult.errDrainTimeout, st2)
      else drainStep m counts fuel st2 (DrainPhase.drain deadline)
  | fuel + 1, st, DrainPhase.steady deadline ssDeadline =>
    let now2 := st.now + 50
    if now2 > deadline then some (DrainResult.errDrainTimeout, ⟨st.idx, now2⟩)
    else
      match counts st.idx with
      | none => some (DrainResult.ioError, ⟨st.idx + 1, now2⟩)
      | some c =>
        let st2 : PollState := ⟨st.idx + 1, now2⟩
        if c > 0 then drainStep m counts fuel st2 (DrainPhase.wait (deadline - now2))
        else if now2 > ssDeadline then some (DrainResult.ok, st2)
        else drainStep m counts fuel st2 (DrainPhase.steady deadline ssDeadline)

/-- `Monitor.WaitForZeroConnections` proper: the `wait` entry point. -/
def waitForZeroConnections (m : MonitorCfg) (counts : Nat → Option Nat)
    (fuel : Nat) (st : PollState) (timeout : Nat) : Option (DrainResult × PollState) :=
  drainStep m counts fuel st (DrainPhase.wait timeout)

/-- The polling loop of `WaitForZeroConnections`. -/
def drainLoop (m : MonitorCfg) (counts : Nat → Option Nat)
    (fuel : Nat) (st : PollState) (deadline : Nat) : Option (DrainResult × PollState) :=
  drainStep m counts fuel st (DrainPhase.drain deadline)

/-- `Monitor.waitForSteadyState`'s 50 ms loop, with the steady-state
deadline computed at entry. -/
def steadyLoop (m : MonitorCfg) (counts : Nat → Option Nat)
    (fuel : Nat) (st : PollState) (deadline ssDeadline : Nat) :
    Option (DrainResult × PollState) :=
  drainStep m counts fuel st (DrainPhase.steady deadline ssDeadline)

end Zerohalt

namespace Zerohalt

/-! ### Lemmas about the lifecycle state store -/

theorem stateSet_terminating (t : Int) :
    stateSet StateTerminating t = StateTerminating := by
  simp [stateSet]

theorem foldl_stateSet_terminating (l : List Int) :
    List.foldl stateSet StateTerminating l = StateTerminating := by
  induction l with
  | nil => rfl
  | cons t rest ih => simpa [stateSet_terminating] using ih

theorem foldl_stateSet_draining (l : List Int) :
    List.foldl stateSet StateDraining l = StateDraining ∨
    List.foldl stateSet StateDraining l = StateTerminating := by
  induction l with
  | nil => exact Or.inl rfl
  | cons t rest ih =>
    by_cases ht : t = StateTerminating
    · subst ht
      simp only [List.foldl_cons]
      have hstep : stateSet StateDraining StateTerminating = StateTerminating := by
        simp [stateSet, StateDraining, StateTerminating]
      rw [hstep]
      exact Or.inr (foldl_stateSet_terminating rest)
    · simp only [List.foldl_cons]
      have hstep : stateSet StateDraining t = StateDraining := by
        unfold stateSet
        rw [if_neg (by decide), if_pos ⟨rfl, ht⟩]
      rw [hstep]
      exact ih

/-- C1: for the lifecycle state store with initial state Starting, after
any finite sequence of `Set` calls, if the stored state is Terminating
then every further sequence of `Set` calls leaves it Terminating, and if
the stored state is Draining then after any further `Set` calls a `Get`
returns only Draining or Terminating — never Starting, Healthy or
Unhealthy. -/
theorem lifecycle_state_monotone (targets suffix : List Int) :
    (runSets targets = StateTerminating →
      List.foldl stateSet (runSets targets) suffix = StateTerminating) ∧
    (runSets targets = StateDraining →
      List.foldl stateSet (runSets targets) suffix = StateDraining ∨
      List.foldl stateSet (runSets targets) suffix = StateTerminating) := by
  constructor
  · intro h
    rw [h]
    exact foldl_stateSet_terminating suffix
  · intro h
    rw [h]
    exact foldl_stateSet_draining suffix

/-- Closed instantiation of `lifecycle_state_monotone`: after `Set`
calls reaching Draining (resp. Terminating), later `Set` calls keep the
store inside the allowed states. -/
theorem lifecycle_state_monotone_witness :
    (List.foldl stateSet (runSets [StateDraining, StateTerminating]) [StateHealthy] =
      StateTerminating) ∧
    (List.foldl stateSet (runSets [StateDraining]) [StateHealthy] = StateDraining ∨
      List.foldl stateSet (runSets [StateDraining]) [StateHealthy] = StateTerminating) :=
  ⟨(lifecycle_state_monotone [StateDraining, StateTerminating] [StateHealthy]).1 (by decide),
   (lifecycle_state_monotone [StateDraining] [StateHealthy]).2 (by decide)⟩

/-! ### Lemmas about connection counting -/

theorem foldl_count_filter (p : Connection → Bool) (l : List Connection) (n : Nat) :
    l.foldl (fun count conn => if p conn then count + 1 else count) n =
      n + (l.filter p).length := by
  induction l generalizing n with
  | nil => simp
  | cons c rest ih =>
    by_cases hc : p c
    · simp [List.filter, hc, ih]
      omega
    · simp [List.filter, hc, ih]

theorem isMonitoredPort_eq_contains (ports : List Nat) (port : Nat) :
    isMonitoredPort ports port = ports.contains port := by
  induction ports with
  | nil => rfl
  | cons p rest ih =>
    by_cases hp : p = port
    · subst hp
      simp [isMonitoredPort, List.contains_cons]
    · simp [isMonitoredPort, hp, ih, List.contains_cons]
      intro h
      omega

theorem isActiveState_eq_spec (s : Nat) :
    isActiveState s = specActiveStates.contains s := by
  match s with
  | 0 => rfl
  | 1 => rfl
  | 2 => rfl
  | 3 => rfl
  | 4 => rfl
  | 5 => rfl
  | 6 => rfl
  | 7 => rfl
  | 8 => rfl
  | 9 => rfl
  | 10 => rfl
  | 11 => rfl
  | (n + 12) => rfl

/-- C4: `CountActiveConnections` counts exactly the connections whose
local port is in the monitored set and whose TCP state is one of the
eight active states listed by the specification; connections in
LISTEN, TIME_WAIT, CLOSE or any unknown state, or on an unmonitored
port, are never counted. -/
theorem countActive_counts_exactly_spec (ports : List Nat) (conns : List Connection) :
    countActiveConnections ports conns =
      (conns.filter
        (fun conn => ports.contains conn.localPort && specActiveStates.contains conn.state)).length ∧
    ∀ conn ∈ conns,
      (conn.state = StateListen ∨ conn.state = StateTimeWait ∨ conn.state = StateClose ∨
        specActiveStates.contains conn.state = false ∨ ports.contains conn.localPort = false) →
      (isMonitoredPort ports conn.localPort && isActiveState conn.state) = false := by
  constructor
  · unfold countActiveConnections
    rw [foldl_count_filter, Nat.zero_add]
    congr 1
    apply List.filter_congr
    intro c _
    rw [isMonitoredPort_eq_contains, isActiveState_eq_spec]
  · intro conn _ h
    rw [isMonitoredPort_eq_contains, isActiveState_eq_spec]
    rcases h with h | h | h | h | h
    · have hs : specActiveStates.contains conn.state = false := by rw [h]; decide
      rw [hs, Bool.and_false]
    · have hs : specActiveStates.contains conn.state = false := by rw [h]; decide
      rw [hs, Bool.and_false]
    · have hs : specActiveStates.contains conn.state = false := by rw [h]; decide
      rw [hs, Bool.and_false]
    · rw [h, Bool.and_false]
    · rw [h, Bool.false_and]

/-- Closed instantiation of `countActive_counts_exactly_spec`: one
LISTEN connection and one off-port connection are not counted, while an
ESTABLISHED connection on a monitored port is. -/
theorem countActive_counts_exactly_spec_witness :
    countActiveConnections [8080]
      [⟨"127.0.0.1", 8080, "10.0.0.1", 4000, StateEstablished, 0⟩,
       ⟨"127.0.0.1", 8080, "10.0.0.2", 4001, StateListen, 0⟩,
       ⟨"127.0.0.1", 9090, "10.0.0.3", 4002, StateEstablished, 0⟩] =
      ([(⟨"127.0.0.1", 8080, "10.0.0.1", 4000, StateEstablished, 0⟩ : Connection),
        ⟨"127.0.0.1", 8080, "10.0.0.2", 4001, StateListen, 0⟩,
        ⟨"127.0.0.1", 9090, "10.0.0.3", 4002, StateEstablished, 0⟩].filter
        (fun conn => [(8080 : Nat)].contains conn.localPort &&
          specActiveStates.contains conn.state)).length ∧
    (isMonitoredPort [8080] 8080 && isActiveState StateListen) = false :=
  ⟨(countActive_counts_exactly_spec [8080] _).1,
   (countActive_counts_exactly_spec [8080]
      [⟨"127.0.0.1", 8080, "10.0.0.1", 4000, StateEstablished, 0⟩,
       ⟨"127.0.0.1", 8080, "10.0.0.2", 4001, StateListen, 0⟩,
       ⟨"127.0.0.1", 9090, "10.0.0.3", 4002, StateEstablished, 0⟩]).2
      ⟨"127.0.0.1", 8080, "10.0.0.2", 4001, StateListen, 0⟩
      (by simp) (Or.inl rfl)⟩

end Zerohalt

namespace Zerohalt

/-! ### Signal router theorems -/

/-- C7: `SignalHandler.Handle` classifies in priority order shutdown,
pass-through, SIGCHLD, default-ignore; every call increments the
received counter for the signal's name exactly once, and the forwarded
counter is incremented exactly when a pass-through forward succeeds. -/
theorem handle_classification (h : SignalHandlerSets) (sig : Sig) (forwardOk : Bool) :
    (h.shutdownSignals sig = true →
      (handle h sig forwardOk).action = SignalAction.ActionShutdown) ∧
    (h.shutdownSignals sig = false → h.passThroughSignals sig = true →
      (handle h sig forwardOk).action = SignalAction.ActionPassThrough) ∧
    (h.shutdownSignals sig = false → h.passThroughSignals sig = false → sig = Sig.SIGCHLD →
      (handle h sig forwardOk).action = SignalAction.ActionReapZombies) ∧
    (h.shutdownSignals sig = false → h.passThroughSignals sig = false → sig ≠ Sig.SIGCHLD →
      (handle h sig forwardOk).action = SignalAction.ActionIgnore) ∧
    (handle h sig forwardOk).receivedInc = [sigString sig] ∧
    (handle h sig forwardOk).forwardedInc =
      (if h.shutdownSignals sig = false ∧ h.passThroughSignals sig = true ∧ forwardOk = true
       then [sigString sig] else []) := by
  refine ⟨?_, ?_, ?_, ?_, ?_, ?_⟩
  · intro hsd
    simp [handle, hsd]
  · intro hsd hpt
    simp [handle, hsd, hpt]
  · intro hsd hpt hc
    subst hc
    simp [handle, hsd, hpt]
  · intro hsd hpt hc
    simp [handle, hsd, hpt, hc]
  · unfold handle
    split
    · rfl
    · split
      · rfl
      · split
        · rfl
        · rfl
  · cases hsd : h.shutdownSignals sig
    · cases hpt : h.passThroughSignals sig
      · simp only [handle, hsd, hpt, Bool.false_eq_true, if_false]
        split <;> simp
      · cases forwardOk <;> simp [handle, forwardSignalToApp, hsd, hpt]
    · simp [handle, hsd]

/-- Closed instantiation of `handle_classification` at a handler whose
shutdown set is exactly SIGTERM and whose pass-through set is exactly
SIGHUP. -/
theorem handle_classification_witness :
    (handle ⟨fun s => s = Sig.SIGHUP, fun s => s = Sig.SIGTERM⟩ Sig.SIGHUP true).action =
      SignalAction.ActionPassThrough ∧
    (handle ⟨fun s => s = Sig.SIGHUP, fun s => s = Sig.SIGTERM⟩ Sig.SIGUSR1 true).action =
      SignalAction.ActionIgnore :=
  ⟨(handle_classification ⟨fun s => s = Sig.SIGHUP, fun s => s = Sig.SIGTERM⟩
      Sig.SIGHUP true).2.1 (by decide) (by decide),
   (handle_classification ⟨fun s => s = Sig.SIGHUP, fun s => s = Sig.SIGTERM⟩
      Sig.SIGUSR1 true).2.2.2.1 (by decide) (by decide) (by decide)⟩

/-- C8: the coordinator resolves the signal for the child as the
configured signal when `SignalToApp` names a recognized signal, and as
the triggering signal when `SignalToApp` is empty or unrecognized; the
default configuration value "SIGTERM" resolves to SIGTERM. -/
theorem getSignalForApp_resolution (cfg : CoordConfig) (trig : Sig) :
    (∀ s : Sig, ParseSignal cfg.signalToApp = some s → getSignalForApp cfg trig = s) ∧
    (cfg.signalToApp = "" → getSignalForApp cfg trig = trig) ∧
    (ParseSignal cfg.signalToApp = none → getSignalForApp cfg trig = trig) ∧
    getSignalForApp { cfg with signalToApp := DefaultConfig.shutdown.signalToApp } trig =
      Sig.SIGTERM := by
  refine ⟨?_, ?_, ?_, ?_⟩
  · intro s hs
    unfold getSignalForApp
    by_cases he : cfg.signalToApp = ""
    · rw [he] at hs
      simp [ParseSignal] at hs
    · rw [if_neg he, hs]
  · intro he
    simp [getSignalForApp, he]
  · intro hn
    unfold getSignalForApp
    by_cases he : cfg.signalToApp = ""
    · rw [if_pos he]
    · rw [if_neg he, hn]
  · rfl

/-- Closed instantiation of `getSignalForApp_resolution`: a recognized
configured name "SIGUSR1" wins over the trigger, an unrecognized name
falls back to the trigger. -/
theorem getSignalForApp_resolution_witness :
    getSignalForApp ⟨0, 0, "SIGUSR1", true⟩ Sig.SIGTERM = Sig.SIGUSR1 ∧
    getSignalForApp ⟨0, 0, "SIGSTOP", true⟩ Sig.SIGTERM = Sig.SIGTERM :=
  ⟨(getSignalForApp_resolution ⟨0, 0, "SIGUSR1", true⟩ Sig.SIGTERM).1 Sig.SIGUSR1 (by decide),
   (getSignalForApp_resolution ⟨0, 0, "SIGSTOP", true⟩ Sig.SIGTERM).2.2.1 (by decide)⟩

/-! ### Configuration theorems -/

theorem validateErr_none_shutdown (cfg : Config) (hv : validateErr cfg = none) :
    ∀ s ∈ cfg.signal.shutdownSignals, s = "SIGTERM" ∨ s = "SIGINT" := by
  intro s hs
  unfold validateErr at hv
  split at hv
  · exact absurd hv (by simp)
  split at hv
  · exact absurd hv (by simp)
  split at hv
  · exact absurd hv (by simp)
  split at hv
  · exact absurd hv (by simp)
  split at hv
  · exact absurd hv (by simp)
  split at hv
  · exact absurd hv (by simp)
  split at hv
  · exact absurd hv (by simp)
  next hfind =>
    have hx := List.find?_eq_none.mp hfind s hs
    simp at hx
    by_cases h1 : s = "SIGTERM"
    · exact Or.inl h1
    · exact Or.inr (hx h1)

/-- C10: the default configuration does not pass its own validation:
SIGQUIT is listed among the default shutdown signals, `Validate`
rejects every shutdown signal other than SIGTERM and SIGINT, and
`LoadFromEnv` with no environment overrides returns the configuration
error "invalid shutdown signal: SIGQUIT". -/
theorem default_config_fails_validation :
    DefaultSignalConfig.shutdownSignals.contains "SIGQUIT" = true ∧
    (∀ (cfg : Config) (s : String), s ∈ cfg.signal.shutdownSignals →
      s ≠ "SIGTERM" → s ≠ "SIGINT" → validateErr cfg ≠ none) ∧
    loadFromEnvEmptyEnv = Except.error "invalid shutdown signal: SIGQUIT" := by
  refine ⟨by decide, ?_, by rfl⟩
  intro cfg s hs hterm hint hnone
  rcases validateErr_none_shutdown cfg hnone s hs with h | h
  · exact hterm h
  · exact hint h

/-- Closed instantiation of `default_config_fails_validation`: the
default configuration's own "SIGQUIT" entry makes validation fail. -/
theorem default_config_fails_validation_witness :
    validateErr DefaultConfig ≠ none :=
  default_config_fails_validation.2.1 DefaultConfig "SIGQUIT" (by decide) (by decide) (by decide)

/-! ### Health endpoint theorems -/

/-- C5: with no application probe configured the health endpoint's
response is determined solely by the sampled lifecycle state, per the
state table, with unknown values yielding 500 and the JSON content
type always set. -/
theorem healthHandler_no_probe_table (b : Bool) (state : Int) :
    (healthHandler false b StateStarting).1 = ⟨503, jsonContentType, startingBody⟩ ∧
    (healthHandler false b StateHealthy).1 = ⟨200, jsonContentType, healthyBody⟩ ∧
    (healthHandler false b StateUnhealthy).1 = ⟨503, jsonContentType, unhealthyBody⟩ ∧
    (healthHandler false b StateDraining).1 = ⟨503, jsonContentType, drainingBody⟩ ∧
    (healthHandler false b StateTerminating).1 = ⟨503, jsonContentType, terminatingBody⟩ ∧
    (state ≠ StateStarting → state ≠ StateHealthy → state ≠ StateUnhealthy →
      state ≠ StateDraining → state ≠ StateTerminating →
      (healthHandler false b state).1 = ⟨500, jsonContentType, unknownBody⟩) := by
  refine ⟨rfl, rfl, rfl, rfl, rfl, ?_⟩
  intro h0 h1 h2 h3 h4
  simp [healthHandler, h0, h1, h2, h3, h4]

/-- Closed instantiation of `healthHandler_no_probe_table`: the state
value 99 yields 500 with the unknown body. -/
theorem healthHandler_no_probe_table_witness :
    (healthHandler false true 99).1 = ⟨500, jsonContentType, unknownBody⟩ :=
  (healthHandler_no_probe_table true 99).2.2.2.2.2
    (by decide) (by decide) (by decide) (by decide) (by decide)

/-- C6: with an application probe configured, sampling Healthy with a
failing probe yields 503 unhealthy while the stored state stays
Healthy, and sampling Unhealthy with a succeeding probe transitions
the stored state to Healthy and yields 200 healthy. -/
theorem healthHandler_probe_override :
    healthHandler true false StateHealthy =
      (⟨503, jsonContentType, unhealthyBody⟩, StateHealthy) ∧
    healthHandler true true StateUnhealthy =
      (⟨200, jsonContentType, healthyBody⟩, StateHealthy) :=
  ⟨rfl, rfl⟩

/-! ### Shutdown coordinator theorems -/

/-- C2: `InitiateShutdown` always sets the state to Draining; its
outcome never depends on the drain wait's error; with no child handle
it returns ok; a completed child wait returns the wait's result with
"no child processes" errors flattened to ok and no SIGKILL; and an
elapsed shutdown timeout returns the distinguished shutdown-timeout
error after sending SIGKILL exactly when `ForceKillAfterTimeout` is
set. -/
theorem initiateShutdown_behavior (cfg : CoordConfig) (hasChild : Bool) (sig : Sig)
    (env env2 : CoordEnv) :
    (initiateShutdown cfg hasChild sig env).stateSetTo = StateDraining ∧
    (env.childWait = env2.childWait →
      initiateShutdown cfg hasChild sig env = initiateShutdown cfg hasChild sig env2) ∧
    (hasChild = false →
      initiateShutdown cfg hasChild sig env = ⟨StateDraining, none, false, ShutdownResult.ok⟩) ∧
    (∀ err, hasChild = true → env.childWait = WaitOutcome.exits err →
      (initiateShutdown cfg hasChild sig env).result =
        (match flattenWaitErr err with
         | none => ShutdownResult.ok
         | some m => ShutdownResult.waitErr m) ∧
      (initiateShutdown cfg hasChild sig env).sigkillSent = false) ∧
    (hasChild = true → env.childWait = WaitOutcome.timesOut →
      (initiateShutdown cfg hasChild sig env).result = ShutdownResult.errShutdownTimeout ∧
      (initiateShutdown cfg hasChild sig env).sigkillSent = cfg.forceKillAfterTimeout ∧
      (initiateShutdown cfg hasChild sig env).signalSent = some (getSignalForApp cfg sig)) ∧
    (∀ m, flattenWaitErr (some m) = none ↔
      (m = "waitid: no child processes" ∨ m = "wait: no child processes")) := by
  refine ⟨?_, ?_, ?_, ?_, ?_, ?_⟩
  · unfold initiateShutdown
    split
    · rfl
    · cases env.childWait
      · dsimp only
        split <;> rfl
      · rfl
  · intro hcw
    cases hasChild
    · rfl
    · simp only [initiateShutdown, hcw]
  · intro hc
    simp [initiateShutdown, hc]
  · intro err hc hcw
    subst hc
    simp only [initiateShutdown, hcw]
    cases hflat : flattenWaitErr err <;> simp [hflat]
  · intro hc hcw
    subst hc
    simp [initiateShutdown, hcw]
  · intro m
    simp only [flattenWaitErr]
    constructor
    · intro hm
      by_cases hcase : m = "waitid: no child processes" ∨ m = "wait: no child processes"
      · exact hcase
      · rw [if_neg hcase] at hm
        exact absurd hm (by simp)
    · intro hcase
      rw [if_pos hcase]

/-- Closed instantiation of `initiateShutdown_behavior`: with a child
that outlives the shutdown timeout and force-kill enabled, the result
is the shutdown-timeout error and SIGKILL is sent. -/
theorem initiateShutdown_behavior_witness :
    (initiateShutdown ⟨60 * second, 30 * second, "SIGTERM", true⟩ true Sig.SIGTERM
      ⟨some "connection drain timeout reached", WaitOutcome.timesOut⟩).result =
      ShutdownResult.errShutdownTimeout ∧
    (initiateShutdown ⟨60 * second, 30 * second, "SIGTERM", true⟩ true Sig.SIGTERM
      ⟨some "connection drain timeout reached", WaitOutcome.timesOut⟩).sigkillSent = true :=
  ⟨((initiateShutdown_behavior ⟨60 * second, 30 * second, "SIGTERM", true⟩ true Sig.SIGTERM
      ⟨some "connection drain timeout reached", WaitOutcome.timesOut⟩
      ⟨some "connection drain timeout reached", WaitOutcome.timesOut⟩).2.2.2.2.1
      (by decide) (by decide)).1,
   ((initiateShutdown_behavior ⟨60 * second, 30 * second, "SIGTERM", true⟩ true Sig.SIGTERM
      ⟨some "connection drain timeout reached", WaitOutcome.timesOut⟩
      ⟨some "connection drain timeout reached", WaitOutcome.timesOut⟩).2.2.2.2.1
      (by decide) (by decide)).2.1⟩

end Zerohalt

namespace Zerohalt

/-! ### Address parsing round-trip -/

theorem hexDigitVal_hexDigitChar (d : Nat) (hd : d < 16) :
    hexDigitVal (hexDigitChar d) = some d := by
  interval_cases d <;> decide

theorem hexDigitChar_ne_colon (d : Nat) (hd : d < 16) : hexDigitChar d ≠ ':' := by
  interval_cases d <;> decide

theorem colon_not_mem_byteToHex (b : Nat) (hb : b < 256) : ':' ∉ byteToHex b := by
  have h1 : b / 16 < 16 := by omega
  have h2 : b % 16 < 16 := by omega
  intro hmem
  rcases List.mem_cons.mp hmem with h | h
  · exact hexDigitChar_ne_colon (b / 16) h1 h.symm
  · rcases List.mem_cons.mp h with h | h
    · exact hexDigitChar_ne_colon (b % 16) h2 h.symm
    · simp at h

theorem splitOnColon_no_colon (r : List Char) (h : ':' ∉ r) : splitOnColon r = [r] := by
  induction r with
  | nil => rfl
  | cons c rest ih =>
    rw [List.mem_cons] at h
    push_neg at h
    unfold splitOnColon
    rw [if_neg (fun hc => h.1 hc.symm), ih h.2]

theorem splitOnColon_append (l r : List Char) (hl : ':' ∉ l) (hr : ':' ∉ r) :
    splitOnColon (l ++ ':' :: r) = [l, r] := by
  induction l with
  | nil =>
    simp only [List.nil_append]
    unfold splitOnColon
    rw [if_pos rfl, splitOnColon_no_colon r hr]
  | cons c l2 ih =>
    rw [List.mem_cons] at hl
    push_neg at hl
    simp only [List.cons_append]
    unfold splitOnColon
    rw [if_neg (fun hc => hl.1 hc.symm), ih hl.2]

theorem foldl_hexval_ge (ds : List Nat) (v : Nat) :
    v ≤ ds.foldl (fun a d => a * 16 + d) v := by
  induction ds generalizing v with
  | nil => exact Nat.le_refl v
  | cons d t ih =>
    simp only [List.foldl_cons]
    exact le_trans (by omega) (ih (v * 16 + d))

theorem goParseAux_of_digits (ds : List Nat) (v : Nat)
    (hds : ∀ d ∈ ds, d < 16)
    (hbound : ds.foldl (fun a d => a * 16 + d) v ≤ 65535) :
    goParseUint16HexAux (ds.map hexDigitChar) v = ds.foldl (fun a d => a * 16 + d) v := by
  induction ds generalizing v with
  | nil => rfl
  | cons d t ih =>
    have hd : d < 16 := hds d (List.mem_cons_self d t)
    have hrest : ∀ x ∈ t, x < 16 := fun x hx => hds x (List.mem_cons_of_mem d hx)
    rw [List.foldl_cons] at hbound ⊢
    have hge : v * 16 + d ≤ t.foldl (fun a x => a * 16 + x) (v * 16 + d) :=
      foldl_hexval_ge t (v * 16 + d)
    simp only [List.map_cons, goParseUint16HexAux, hexDigitVal_hexDigitChar d hd]
    rw [if_neg (by omega)]
    exact ih (v * 16 + d) hrest hbound

theorem foldl_reverse_digits (p : Nat) :
    (Nat.digits 16 p).reverse.foldl (fun a d => a * 16 + d) 0 = p := by
  have h : ∀ L : List Nat, L.reverse.foldl (fun a d => a * 16 + d) 0 = Nat.ofDigits 16 L := by
    intro L
    induction L with
    | nil => simp [Nat.ofDigits_nil]
    | cons a T ih =>
      rw [List.reverse_cons, List.foldl_append, ih, Nat.ofDigits_cons]
      simp only [List.foldl_cons, List.foldl_nil]
      ring
  rw [h, Nat.ofDigits_digits]

theorem goParse_natToHexChars (p : Nat) (hp : p < 65536) :
    goParseUint16Hex (natToHexChars p) = p := by
  by_cases h0 : p = 0
  · subst h0
    decide
  · unfold natToHexChars
    rw [if_neg h0]
    have hlt : ∀ d ∈ (Nat.digits 16 p).reverse, d < 16 := by
      intro d hd
      exact Nat.digits_lt_base (by norm_num) (List.mem_reverse.mp hd)
    have hbound : (Nat.digits 16 p).reverse.foldl (fun a d => a * 16 + d) 0 ≤ 65535 := by
      rw [foldl_reverse_digits]
      omega
    have haux := goParseAux_of_digits ((Nat.digits 16 p).reverse) 0 hlt hbound
    rw [foldl_reverse_digits] at haux
    cases hl : (Nat.digits 16 p).reverse.map hexDigitChar with
    | nil =>
      exfalso
      have hne : Nat.digits 16 p ≠ [] := Nat.digits_ne_nil_iff_ne_zero.mpr h0
      rw [List.map_eq_nil_iff, List.reverse_eq_nil_iff] at hl
      exact hne hl
    | cons c cs =>
      show goParseUint16HexAux (c :: cs) 0 = p
      rw [← hl]
      exact haux

theorem hexDecode_byteToHex (b : Nat) (hb : b < 256) (rest : List Char) :
    hexDecode (byteToHex b ++ rest) = (hexDecode rest).map (fun t => b :: t) := by
  have h1 : b / 16 < 16 := by omega
  have h2 : b % 16 < 16 := by omega
  have hb2 : b / 16 * 16 + b % 16 = b := by omega
  simp only [byteToHex, List.cons_append, List.nil_append, hexDecode,
    hexDigitVal_hexDigitChar _ h1, hexDigitVal_hexDigitChar _ h2, hb2]
  rfl

theorem hexDecode_byteToHex_nil (b : Nat) (hb : b < 256) :
    hexDecode (byteToHex b) = some [b] := by
  have h := hexDecode_byteToHex b hb []
  rw [List.append_nil] at h
  rw [h]
  rfl

theorem hexDecode_four (a b c d : Nat)
    (ha : a < 256) (hb : b < 256) (hc : c < 256) (hd : d < 256) :
    hexDecode (byteToHex d ++ byteToHex c ++ byteToHex b ++ byteToHex a) =
      some [d, c, b, a] := by
  simp only [List.append_assoc]
  rw [hexDecode_byteToHex d hd, hexDecode_byteToHex c hc, hexDecode_byteToHex b hb,
    hexDecode_byteToHex_nil a ha]
  rfl

theorem parseIPv4Hex_encode (a b c d : Nat)
    (ha : a < 256) (hb : b < 256) (hc : c < 256) (hd : d < 256) :
    parseIPv4Hex (byteToHex d ++ byteToHex c ++ byteToHex b ++ byteToHex a) =
      dottedQuad a b c d := by
  have hlen : (byteToHex d ++ byteToHex c ++ byteToHex b ++ byteToHex a).length = 8 := by
    simp [byteToHex]
  unfold parseIPv4Hex
  rw [if_neg (by rw [hlen]; exact fun h => h rfl)]
  rw [hexDecode_four a b c d ha hb hc hd]
  rfl

/-- C9: for every IPv4 address `a.b.c.d` and port `p < 65536`, encoding
the address hex little-endian, appending a colon and the hex digits of
the port, and applying `parseAddress` yields back exactly the
dotted-quad string and the port. -/
theorem parseAddress_roundtrip (a b c d p : Nat)
    (ha : a < 256) (hb : b < 256) (hc : c < 256) (hd : d < 256) (hp : p < 65536) :
    parseAddress (encodeProcAddr a b c d p) = (dottedQuad a b c d, p) := by
  have hipcolon : ':' ∉ (byteToHex d ++ byteToHex c ++ byteToHex b ++ byteToHex a) := by
    simp only [List.mem_append, not_or]
    exact ⟨⟨⟨colon_not_mem_byteToHex d hd, colon_not_mem_byteToHex c hc⟩,
      colon_not_mem_byteToHex b hb⟩, colon_not_mem_byteToHex a ha⟩
  have hportcolon : ':' ∉ natToHexChars p := by
    unfold natToHexChars
    by_cases h0 : p = 0
    · simp [h0]
    · rw [if_neg h0]
      intro hmem
      rw [List.mem_map] at hmem
      obtain ⟨x, hx, hcx⟩ := hmem
      have hxlt : x < 16 := Nat.digits_lt_base (by norm_num) (List.mem_reverse.mp hx)
      exact hexDigitChar_ne_colon x hxlt hcx
  unfold parseAddress encodeProcAddr
  rw [splitOnColon_append _ _ hipcolon hportcolon]
  dsimp only
  rw [parseIPv4Hex_encode a b c d ha hb hc hd, goParse_natToHexChars p hp]

/-- Closed instantiation of `parseAddress_roundtrip`: the encoding of
127.0.0.1:8080 parses back to exactly that address and port. -/
theorem parseAddress_roundtrip_witness :
    parseAddress (encodeProcAddr 127 0 0 1 8080) = ("127.0.0.1", 8080) := by
  have h := parseAddress_roundtrip 127 0 0 1 8080
    (by decide) (by decide) (by decide) (by decide) (by decide)
  rw [h]
  rfl

end Zerohalt

namespace Zerohalt

/-! ### Drain wait theorems -/

theorem waitForZero_immediate_ok (m : MonitorCfg) (counts : Nat → Option Nat)
    (st : PollState) (timeout fuel : Nat)
    (hss : m.steadyStateWait = 0) (hc : counts st.idx = some 0) :
    waitForZeroConnections m counts (fuel + 1) st timeout =
      some (DrainResult.ok, ⟨st.idx + 1, st.now⟩) := by
  simp [waitForZeroConnections, drainStep, hc, hss]

theorem drainLoop_all_positive (m : MonitorCfg) (counts : Nat → Option Nat)
    (hpos : ∀ i, ∃ c, counts i = some c ∧ 0 < c) :
    ∀ fuel (st : PollState) deadline, 1 ≤ fuel → deadline < st.now + fuel * m.interval →
      ∃ st2, drainLoop m counts fuel st deadline =
        some (DrainResult.errDrainTimeout, st2) := by
  intro fuel
  induction fuel with
  | zero =>
    intro st deadline h1 _
    exact absurd h1 (by omega)
  | succ fuel ih =>
    intro st deadline _ hbound
    obtain ⟨c, hc, hcpos⟩ := hpos st.idx
    have hcne : ¬ c = 0 := by omega
    by_cases hd : st.now + m.interval > deadline
    · refine ⟨⟨st.idx + 1, st.now + m.interval⟩, ?_⟩
      simp [drainLoop, drainStep, hc, hcne, hd]
    · have hfuel1 : 1 ≤ fuel := by
        rcases Nat.eq_zero_or_pos fuel with h0 | h1
        · subst h0
          rw [Nat.one_mul] at hbound
          exact absurd hbound (by omega)
        · exact h1
      have hstep : drainLoop m counts (fuel + 1) st deadline =
          drainLoop m counts fuel ⟨st.idx + 1, st.now + m.interval⟩ deadline := by
        simp [drainLoop, drainStep, hc, hcne, hd]
      rw [hstep]
      apply ih
      · exact hfuel1
      · show deadline < st.now + m.interval + fuel * m.interval
        have hmul : st.now + (fuel + 1) * m.interval =
            st.now + m.interval + fuel * m.interval := by ring
        omega

theorem waitForZero_all_positive (m : MonitorCfg) (counts : Nat → Option Nat)
    (st : PollState) (timeout fuel : Nat)
    (hpos : ∀ i, ∃ c, counts i = some c ∧ 0 < c)
    (hfuel1 : 1 ≤ fuel) (hbound : timeout < fuel * m.interval) :
    ∃ st2, waitForZeroConnections m counts (fuel + 1) st timeout =
      some (DrainResult.errDrainTimeout, st2) := by
  obtain ⟨c, hc, hcpos⟩ := hpos st.idx
  have hcne : ¬ c = 0 := by omega
  have hstep : waitForZeroConnections m counts (fuel + 1) st timeout =
      drainLoop m counts fuel ⟨st.idx + 1, st.now⟩ (st.now + timeout) := by
    simp [waitForZeroConnections, drainLoop, drainStep, hc, hcne]
  rw [hstep]
  apply drainLoop_all_positive m counts hpos fuel
  · exact hfuel1
  · show st.now + timeout < st.now + fuel * m.interval
    omega

theorem steadyLoop_reenter (m : MonitorCfg) (counts : Nat → Option Nat)
    (st : PollState) (deadline ssDeadline c fuel : Nat)
    (hd : st.now + 50 ≤ deadline) (hc : counts st.idx = some c) (hcpos : 0 < c) :
    steadyLoop m counts (fuel + 1) st deadline ssDeadline =
      waitForZeroConnections m counts fuel ⟨st.idx + 1, st.now + 50⟩
        (deadline - (st.now + 50)) := by
  simp [steadyLoop, waitForZeroConnections, drainStep, hc, hcpos, Nat.not_lt.mpr hd]

theorem steadyLoop_all_zero_ok (m : MonitorCfg) (counts : Nat → Option Nat)
    (hzero : ∀ i, counts i = some 0) :
    ∀ fuel (st : PollState) deadline ssDeadline,
      st.now ≤ ssDeadline → ssDeadline + 50 ≤ deadline → ssDeadline < st.now + 50 * fuel →
      ∃ st2, steadyLoop m counts fuel st deadline ssDeadline =
        some (DrainResult.ok, st2) := by
  intro fuel
  induction fuel with
  | zero =>
    intro st deadline ssDeadline h1 _ h3
    exact absurd h3 (by omega)
  | succ fuel ih =>
    intro st deadline ssDeadline hinv hdl hfuel
    have hc := hzero st.idx
    have hdead : ¬ st.now + 50 > deadline := by omega
    by_cases hss : st.now + 50 > ssDeadline
    · refine ⟨⟨st.idx + 1, st.now + 50⟩, ?_⟩
      simp [steadyLoop, drainStep, hc, hdead, hss]
    · have hstep : steadyLoop m counts (fuel + 1) st deadline ssDeadline =
          steadyLoop m counts fuel ⟨st.idx + 1, st.now + 50⟩ deadline ssDeadline := by
        simp [steadyLoop, drainStep, hc, hdead, hss]
      rw [hstep]
      apply ih
      · show st.now + 50 ≤ ssDeadline
        omega
      · exact hdl
      · show ssDeadline < st.now + 50 + 50 * fuel
        have hmul : st.now + 50 * (fuel + 1) = st.now + 50 + 50 * fuel := by ring
        omega

theorem steadyLoop_all_zero_timeout (m : MonitorCfg) (counts : Nat → Option Nat)
    (hzero : ∀ i, counts i = some 0) :
    ∀ fuel (st : PollState) deadline ssDeadline,
      1 ≤ fuel → deadline ≤ ssDeadline → deadline < st.now + 50 * fuel →
      ∃ st2, steadyLoop m counts fuel st deadline ssDeadline =
        some (DrainResult.errDrainTimeout, st2) := by
  intro fuel
  induction fuel with
  | zero =>
    intro st deadline ssDeadline h1 _ _
    exact absurd h1 (by omega)
  | succ fuel ih =>
    intro st deadline ssDeadline _ hdssd hfuel
    by_cases hd : st.now + 50 > deadline
    · refine ⟨⟨st.idx, st.now + 50⟩, ?_⟩
      simp [steadyLoop, drainStep, hd]
    · have hc := hzero st.idx
      have hss : ¬ st.now + 50 > ssDeadline := by omega
      have hstep : steadyLoop m counts (fuel + 1) st deadline ssDeadline =
          steadyLoop m counts fuel ⟨st.idx + 1, st.now + 50⟩ deadline ssDeadline := by
        simp [steadyLoop, drainStep, hc, hd, hss]
      rw [hstep]
      apply ih
      · have hmul : st.now + 50 * (fuel + 1) = st.now + 50 + 50 * fuel := by ring
        omega
      · exact hdssd
      · show deadline < st.now + 50 + 50 * fuel
        have hmul : st.now + 50 * (fuel + 1) = st.now + 50 + 50 * fuel := by ring
        omega

theorem waitForZero_all_zero_ok (m : MonitorCfg) (counts : Nat → Option Nat)
    (st : PollState) (timeout fuel : Nat)
    (hzero : ∀ i, counts i = some 0) (hsspos : 0 < m.steadyStateWait)
    (hroom : m.steadyStateWait + 50 ≤ timeout) (hfuel : m.steadyStateWait < 50 * fuel) :
    ∃ st2, waitForZeroConnections m counts (fuel + 1) st timeout =
      some (DrainResult.ok, st2) := by
  have hc := hzero st.idx
  have hstep : waitForZeroConnections m counts (fuel + 1) st timeout =
      steadyLoop m counts fuel ⟨st.idx + 1, st.now⟩ (st.now + timeout)
        (st.now + m.steadyStateWait) := by
    simp [waitForZeroConnections, steadyLoop, drainStep, hc, hsspos]
  rw [hstep]
  apply steadyLoop_all_zero_ok m counts hzero fuel
  · show st.now ≤ st.now + m.steadyStateWait
    omega
  · omega
  · show st.now + m.steadyStateWait < st.now + 50 * fuel
    omega

theorem waitForZero_all_zero_timeout (m : MonitorCfg) (counts : Nat → Option Nat)
    (st : PollState) (timeout fuel : Nat)
    (hzero : ∀ i, counts i = some 0) (hsspos : 0 < m.steadyStateWait)
    (hshort : timeout ≤ m.steadyStateWait) (hfuel1 : 1 ≤ fuel) (hfuel : timeout < 50 * fuel) :
    ∃ st2, waitForZeroConnections m counts (fuel + 1) st timeout =
      some (DrainResult.errDrainTimeout, st2) := by
  have hc := hzero st.idx
  have hstep : waitForZeroConnections m counts (fuel + 1) st timeout =
      steadyLoop m counts fuel ⟨st.idx + 1, st.now⟩ (st.now + timeout)
        (st.now + m.steadyStateWait) := by
    simp [waitForZeroConnections, steadyLoop, drainStep, hc, hsspos]
  rw [hstep]
  apply steadyLoop_all_zero_timeout m counts hzero fuel
  · exact hfuel1
  · omega
  · show st.now + timeout < st.now + 50 * fuel
    omega

/-- C3: behavior of `WaitForZeroConnections(timeout)`.  First, if the
first sampled count is 0 and the steady-state wait is 0, it returns ok
immediately (the clock does not advance).  Second, if every sample is
positive, it returns the drain-timeout error once the deadline passes.
Third, if during the steady-state wait a positive count is sampled, the
whole wait is re-entered with exactly the time remaining until the
original deadline.  Fourth, with counts continuously zero and the
steady-state wait fitting before the deadline, a full steady-state
interval returns ok.  Fifth, if the original deadline passes during the
steady-state wait, it returns the drain-timeout error. -/
theorem waitForZeroConnections_behavior :
    (∀ (m : MonitorCfg) (counts : Nat → Option Nat) (st : PollState) (timeout fuel : Nat),
      m.steadyStateWait = 0 → counts st.idx = some 0 →
      waitForZeroConnections m counts (fuel + 1) st timeout =
        some (DrainResult.ok, ⟨st.idx + 1, st.now⟩)) ∧
    (∀ (m : MonitorCfg) (counts : Nat → Option Nat) (st : PollState) (timeout fuel : Nat),
      (∀ i, ∃ c, counts i = some c ∧ 0 < c) → 1 ≤ fuel → timeout < fuel * m.interval →
      ∃ st2, waitForZeroConnections m counts (fuel + 1) st timeout =
        some (DrainResult.errDrainTimeout, st2)) ∧
    (∀ (m : MonitorCfg) (counts : Nat → Option Nat) (st : PollState)
      (deadline ssDeadline c fuel : Nat),
      st.now + 50 ≤ deadline → counts st.idx = some c → 0 < c →
      steadyLoop m counts (fuel + 1) st deadline ssDeadline =
        waitForZeroConnections m counts fuel ⟨st.idx + 1, st.now + 50⟩
          (deadline - (st.now + 50))) ∧
    (∀ (m : MonitorCfg) (counts : Nat → Option Nat) (st : PollState) (timeout fuel : Nat),
      (∀ i, counts i = some 0) → 0 < m.steadyStateWait →
      m.steadyStateWait + 50 ≤ timeout → m.steadyStateWait < 50 * fuel →
      ∃ st2, waitForZeroConnections m counts (fuel + 1) st timeout =
        some (DrainResult.ok, st2)) ∧
    (∀ (m : MonitorCfg) (counts : Nat → Option Nat) (st : PollState) (timeout fuel : Nat),
      (∀ i, counts i = some 0) → 0 < m.steadyStateWait → timeout ≤ m.steadyStateWait →
      1 ≤ fuel → timeout < 50 * fuel →
      ∃ st2, waitForZeroConnections m counts (fuel + 1) st timeout =
        some (DrainResult.errDrainTimeout, st2)) := by
  refine ⟨?_, ?_, ?_, ?_, ?_⟩
  · intro m counts st timeout fuel hss hc
    exact waitForZero_immediate_ok m counts st timeout fuel hss hc
  · intro m counts st timeout fuel hpos hfuel1 hbound
    exact waitForZero_all_positive m counts st timeout fuel hpos hfuel1 hbound
  · intro m counts st deadline ssDeadline c fuel hd hc hcpos
    exact steadyLoop_reenter m counts st deadline ssDeadline c fuel hd hc hcpos
  · intro m counts st timeout fuel hzero hsspos hroom hfuel
    exact waitForZero_all_zero_ok m counts st timeout fuel hzero hsspos hroom hfuel
  · intro m counts st timeout fuel hzero hsspos hshort hfuel1 hfuel
    exact waitForZero_all_zero_timeout m counts st timeout fuel hzero hsspos hshort hfuel1 hfuel

/-- Closed instantiation of `waitForZeroConnections_behavior`: one
concrete run per clause, with a 1000 ms check interval. -/
theorem waitForZeroConnections_behavior_witness :
    (waitForZeroConnections ⟨1000, 0⟩ (fun _ => some 0) 1 ⟨0, 0⟩ 60000 =
      some (DrainResult.ok, ⟨1, 0⟩)) ∧
    (∃ st2, waitForZeroConnections ⟨1000, 0⟩ (fun _ => some 1) 62 ⟨0, 0⟩ 60000 =
      some (DrainResult.errDrainTimeout, st2)) ∧
    (steadyLoop ⟨1000, 2000⟩ (fun _ => some 1) 6 ⟨0, 0⟩ 60000 2000 =
      waitForZeroConnections ⟨1000, 2000⟩ (fun _ => some 1) 5 ⟨1, 50⟩ 59950) ∧
    (∃ st2, waitForZeroConnections ⟨1000, 200⟩ (fun _ => some 0) 6 ⟨0, 0⟩ 60000 =
      some (DrainResult.ok, st2)) ∧
    (∃ st2, waitForZeroConnections ⟨1000, 60000⟩ (fun _ => some 0) 8 ⟨0, 0⟩ 300 =
      some (DrainResult.errDrainTimeout, st2)) :=
  ⟨waitForZeroConnections_behavior.1 ⟨1000, 0⟩ (fun _ => some 0) ⟨0, 0⟩ 60000 0
      (by decide) rfl,
   waitForZeroConnections_behavior.2.1 ⟨1000, 0⟩ (fun _ => some 1) ⟨0, 0⟩ 60000 61
      (fun i => ⟨1, rfl, by decide⟩) (by decide) (by decide),
   waitForZeroConnections_behavior.2.2.1 ⟨1000, 2000⟩ (fun _ => some 1) ⟨0, 0⟩ 60000 2000 1 5
      (by decide) rfl (by decide),
   waitForZeroConnections_behavior.2.2.2.1 ⟨1000, 200⟩ (fun _ => some 0) ⟨0, 0⟩ 60000 5
      (fun i => rfl) (by decide) (by decide) (by decide),
   waitForZeroConnections_behavior.2.2.2.2 ⟨1000, 60000⟩ (fun _ => some 0) ⟨0, 0⟩ 300 7
      (fun i => rfl) (by decide) (by decide) (by decide) (by decide)⟩

end Zerohalt
